import Mathlib

/-!
Verification development for the redback synthetic-observation simulator.

The repository's visible material is the example notebook
`examples/ToOSimulations_with_redback.ipynb` (a caller of
`redback.simulate_transients`), documentation (`docs/likelihood.txt`,
`docs/plotting.txt`) and prior files.  The simulator implementation itself
(`SimulateOpticalTransient`, `make_pointing_table_from_average_cadence`) is not
among the visible source files, so the pipeline below is modelled from the
design specification; the Gaussian likelihood of `docs/likelihood.txt` is
embedded directly from the code shown there.

Numbers are modelled as rationals; the standard-normal draws consumed by the
cadence scatter and by the noise injection are modelled as explicit streams
`ℕ → ℚ` (a caller-fixed seed determines such a stream), so every run is a pure
function of its configuration and its draw stream.
-/

namespace Redback

/-- One scheduled observation opportunity: epoch, filter band and 5σ depth. -/
structure Pointing where
  time : ℚ
  band : String
  limiting_magnitude : ℚ
  deriving DecidableEq, Repr

/-- One simulated observation produced from a pointing. -/
structure ObservationRecord where
  time : ℚ
  band : String
  observed_value : ℚ
  uncertainty : ℚ
  limiting_magnitude : ℚ
  detected : Bool
  deriving DecidableEq, Repr

/-- Configuration errors of the simulation pipeline. -/
inductive ConfigError where
  | unresolvableModel
  | missingParameter
  | missingBand
  deriving DecidableEq, Repr

/-- Errors surfaced when loading a saved transient from disk. -/
inductive LoadError where
  | invalidDataMode
  | missingFile
  | missingColumn
  deriving DecidableEq, Repr

/-- Modelled from the spec: `make_pointing_table_from_average_cadence` is not
among the visible sources.  Per the spec's Pointing Table Builder algorithm,
a band's observation times start at the survey start time and each subsequent
time is the previous time plus the band's average cadence plus a zero-mean
Gaussian perturbation with the band's scatter; the perturbation is modelled as
scatter times a standard-normal draw from the stream `zs`. -/
def bandTime (initMJD avgCadence scatter : ℚ) (zs : ℕ → ℚ) : ℕ → ℚ
  | 0 => initMJD
  | n + 1 => bandTime initMJD avgCadence scatter zs n + avgCadence + scatter * zs n

/-- The list of the first `numObs` observation times of one band. -/
def bandTimes (numObs : ℕ) (initMJD avgCadence scatter : ℚ) (zs : ℕ → ℚ) : List ℚ :=
  (List.range numObs).map (bandTime initMJD avgCadence scatter zs)

/-- Per-band configuration of the pointing table builder: observation counts,
average cadences, cadence scatters and limiting magnitudes are association
lists keyed by band, plus fixed sky coordinates and the survey start time. -/
structure CadenceConfig where
  ra : ℚ
  dec : ℚ
  num_obs : List (String × ℕ)
  average_cadence : List (String × ℚ)
  cadence_scatter : List (String × ℚ)
  limiting_magnitudes : List (String × ℚ)
  initMJD : ℚ

/-- Modelled from the spec: the pointings of one band.  A band of `num_obs`
missing from one of the other per-band mappings is a configuration error
reported immediately; the error branch consumes no random draws. -/
def makeBandPointings (cfg : CadenceConfig) (band : String) (n : ℕ)
    (zs : ℕ → ℚ) : Except ConfigError (List Pointing) :=
  match cfg.average_cadence.lookup band, cfg.cadence_scatter.lookup band,
      cfg.limiting_magnitudes.lookup band with
  | some c, some s, some lm =>
      .ok ((bandTimes n cfg.initMJD c s zs).map fun t =>
        { time := t, band := band, limiting_magnitude := lm })
  | _, _, _ => .error .missingBand

/-- Modelled from the spec: the full pointing table, band-grouped, one group
per entry of `num_obs`; `zs` supplies an independent draw stream per band. -/
def make_pointing_table_from_average_cadence (cfg : CadenceConfig)
    (zs : String → ℕ → ℚ) : Except ConfigError (List Pointing) :=
  cfg.num_obs.foldr
    (fun bn acc => do
      let ps ← makeBandPointings cfg bn.1 bn.2 (zs bn.1)
      let rest ← acc
      pure (ps ++ rest))
    (.ok [])

/-- Modelled from the spec: the signal-to-noise ratio of an observed value
against its derived uncertainty. -/
def snrOf (observed uncertainty : ℚ) : ℚ := observed / uncertainty

/-- Modelled from the spec: `detected = true` iff the signal-to-noise ratio is
at least the configured threshold. -/
def detectedFlag (snrThreshold observed uncertainty : ℚ) : Bool :=
  snrThreshold ≤ snrOf observed uncertainty

/-- Modelled from the spec: the Noise & Detection Engine for one pointing.
The limiting-magnitude-to-uncertainty formula is left open by the spec, so it
is a parameter `deriveUnc` of noiseless model value and limiting magnitude.
The noisy observed value perturbs the model value by the derived uncertainty
times a standard-normal draw `z`; non-detections report the limiting magnitude
as the observed value, and the limiting magnitude is kept as its own field. -/
def processPointing (deriveUnc : ℚ → ℚ → ℚ) (snrThreshold : ℚ) (p : Pointing)
    (modelValue z : ℚ) : ObservationRecord :=
  let sigma := deriveUnc modelValue p.limiting_magnitude
  let noisy := modelValue + sigma * z
  let det := detectedFlag snrThreshold noisy sigma
  { time := p.time
    band := p.band
    observed_value := if det then noisy else p.limiting_magnitude
    uncertainty := sigma
    limiting_magnitude := p.limiting_magnitude
    detected := det }

/-- Modelled from the spec: a physical model is a pure function of time, band
and parameter set, together with its declared required argument names (the
model's argument names minus the independent time variable). -/
structure Model where
  requiredArgs : List String
  eval : ℚ → String → List (String × ℚ) → ℚ

/-- The Model Evaluator: invoke a model at a time, band and parameter set. -/
def evalModel (m : Model) (t : ℚ) (band : String)
    (params : List (String × ℚ)) : ℚ :=
  m.eval t band params

/-- Modelled from the spec: every declared required argument of the model must
be present in the supplied parameter set. -/
def requiredArgsPresent (m : Model) (params : List (String × ℚ)) : Bool :=
  m.requiredArgs.all fun a => (params.lookup a).isSome

/-- Modelled from the spec: the optional end-time cutoff drops pointings past
the horizon entirely before any evaluation; with no cutoff, all pointings are
kept. -/
def keptPointings (cutoff : Option ℚ) (ps : List Pointing) : List Pointing :=
  match cutoff with
  | none => ps
  | some c => ps.filter fun p => decide (p.time ≤ c)

/-- Modelled from the spec: the pointing loop.  Each pointing is evaluated by
the Model Evaluator (no noise at that stage) and then processed by the Noise &
Detection Engine with one standard-normal draw taken from the stream. -/
def runSim (deriveUnc : ℚ → ℚ → ℚ) (m : Model) (params : List (String × ℚ))
    (snrThreshold : ℚ) (ps : List Pointing) (zs : ℕ → ℚ) :
    List ObservationRecord :=
  match ps with
  | [] => []
  | p :: rest =>
      processPointing deriveUnc snrThreshold p (evalModel m p.time p.band params)
          (zs 0) ::
        runSim deriveUnc m params snrThreshold rest (fun n => zs (n + 1))

/-- Modelled from the spec: `SimulateOpticalTransient.simulate_transient` is
not among the visible sources.  Configuration is validated first — an
unresolvable model identifier or a parameter set missing a required argument
is a configuration error raised before the pointing loop and before any noise
draw — and only then is the pointing loop run over the cutoff-filtered
pointings. -/
def simulate_transient (registry : List (String × Model)) (modelId : String)
    (params : List (String × ℚ)) (snrThreshold : ℚ) (endTransientTime : Option ℚ)
    (deriveUnc : ℚ → ℚ → ℚ) (ps : List Pointing) (zs : ℕ → ℚ) :
    Except ConfigError (List ObservationRecord) :=
  match registry.lookup modelId with
  | none => .error .unresolvableModel
  | some m =>
      if requiredArgsPresent m params then
        .ok (runSim deriveUnc m params snrThreshold
          (keptPointings endTransientTime ps) zs)
      else .error .missingParameter

/-- A cell of the persisted observation table: numeric or text. -/
inductive Cell where
  | num (v : ℚ)
  | str (s : String)
  deriving DecidableEq, Repr

/-- Modelled from the spec and the notebook's use of
`observations['detected'] != 1.0`: the persisted `detected` column is numeric,
1 for a detection and 0 for a non-detection. -/
def detectedCellValue (d : Bool) : ℚ := if d then 1 else 0

/-- Serialize one observation record to one row of the persisted table. -/
def recordToRow (r : ObservationRecord) : List Cell :=
  [.num r.time, .str r.band, .num r.observed_value, .num r.uncertainty,
    .num r.limiting_magnitude, .num (detectedCellValue r.detected)]

/-- Parse one persisted row back into an observation record; a malformed row
(missing or mistyped column) is reported as `none`. -/
def rowToRecord (row : List Cell) : Option ObservationRecord :=
  match row with
  | [.num t, .str b, .num ov, .num unc, .num lm, .num d] =>
      some { time := t, band := b, observed_value := ov, uncertainty := unc,
             limiting_magnitude := lm, detected := decide (d = 1) }
  | _ => none

/-- Parse all rows of a persisted table; any malformed row fails the load. -/
def parseRows : List (List Cell) → Option (List ObservationRecord)
  | [] => some []
  | row :: rest => do
      let r ← rowToRecord row
      let rs ← parseRows rest
      pure (r :: rs)

/-- The result of one simulation run: the observation records, the originating
parameter set and the output-value convention. -/
structure SimResult where
  data_mode : String
  observations : List ObservationRecord
  parameters : List (String × ℚ)

/-- The pair of persisted files for one saved transient: the tabular
observation file (its value column named by the data mode) and the sibling
parameter file. -/
structure SavedTransient where
  data_mode : String
  rows : List (List Cell)
  parameters : List (String × ℚ)

/-- Modelled from the spec: the recognised output-value conventions. -/
def validDataModes : List String := ["magnitude", "flux", "flux_density", "luminosity"]

/-- Modelled from the spec: `save_transient` writes the observation table and
the sibling parameter file under the key `name`; the store is modelled as an
association list from names to saved file pairs. -/
def save_transient (store : List (String × SavedTransient)) (name : String)
    (sim : SimResult) : List (String × SavedTransient) :=
  (name,
    { data_mode := sim.data_mode, rows := sim.observations.map recordToRow,
      parameters := sim.parameters }) :: store

/-- Modelled from the spec: `Kilonova.from_simulated_optical_data` reloads a
saved transient.  The data mode must be a recognised convention (no
auto-detection), the files must exist under `name`, and the value column named
by the requested data mode must be present; any failure is a distinct error
with no partial reconstruction. -/
def from_simulated_optical_data (store : List (String × SavedTransient))
    (name : String) (data_mode : String) :
    Except LoadError (List ObservationRecord × List (String × ℚ)) :=
  if validDataModes.contains data_mode then
    match store.lookup name with
    | none => .error .missingFile
    | some saved =>
        if saved.data_mode == data_mode then
          match parseRows saved.rows with
          | none => .error .missingColumn
          | some obs => .ok (obs, saved.parameters)
        else .error .missingColumn
  else .error .invalidDataMode

/-- Embedded from `docs/likelihood.txt`: the state of the user-defined
`GaussianLikelihoodKnownNoise`.  The wrapped python function is modelled as a
pure function of the abscissae and the parameter set, and the names
`inspect.getargspec(function).args` returns are carried explicitly. -/
structure GaussianLikelihoodKnownNoise where
  x : List ℚ
  y : List ℚ
  sigma : ℚ
  functionArgNames : List String
  function : List ℚ → List (String × ℚ) → List ℚ
  parameters : List (String × ℚ)

/-- Embedded from `docs/likelihood.txt`: `parameters.pop(0)` removes the first
(dependent-variable) argument name; on an empty argument list python would
raise, modelled as `none`. -/
def popFirstArg : List String → Option (List String)
  | [] => none
  | _ :: rest => some rest

/-- The sampled parameter names the likelihood infers from its function. -/
def GaussianLikelihoodKnownNoise.sampledParameterNames
    (L : GaussianLikelihoodKnownNoise) : Option (List String) :=
  popFirstArg L.functionArgNames

/-- Embedded from `docs/likelihood.txt`: `self.N = len(x)`. -/
def GaussianLikelihoodKnownNoise.N (L : GaussianLikelihoodKnownNoise) : ℕ :=
  L.x.length

/-- Embedded from `docs/likelihood.txt`: the log likelihood
`-0.5 * (np.sum((res / sigma)**2) + N * np.log(2 * np.pi * sigma**2))` with
`res = y - function(x, **parameters)`; the transcendental `np.log` and `np.pi`
are abstracted as arguments. -/
def GaussianLikelihoodKnownNoise.log_likelihood (L : GaussianLikelihoodKnownNoise)
    (log : ℚ → ℚ) (pi : ℚ) : ℚ :=
  let res := L.y.zipWith (· - ·) (L.function L.x L.parameters);
  -0.5 * ((res.map fun r => (r / L.sigma) ^ 2).sum +
    (L.N : ℚ) * log (2 * pi * L.sigma ^ 2))

theorem bandTime_zero_scatter (initMJD avgCadence : ℚ) (zs : ℕ → ℚ) (n : ℕ) :
    bandTime initMJD avgCadence 0 zs n = initMJD + n * avgCadence := by
  induction n with
  | zero => simp [bandTime]
  | succ k ih => simp [bandTime, ih]; ring

/-- C1: for every pointing processed by the Noise & Detection Engine, the
record has `detected = true` iff the signal-to-noise ratio of the noisy
observed value against the derived uncertainty is at least the threshold,
for every threshold value (0 included, as the threshold is universally
quantified). -/
theorem detected_iff_snr_ge_threshold (deriveUnc : ℚ → ℚ → ℚ)
    (snrThreshold : ℚ) (p : Pointing) (modelValue z : ℚ) :
    (processPointing deriveUnc snrThreshold p modelValue z).detected = true ↔
      snrThreshold ≤
        snrOf (modelValue + deriveUnc modelValue p.limiting_magnitude * z)
          (deriveUnc modelValue p.limiting_magnitude) := by
  simp [processPointing, detectedFlag]

/-- C2: every non-detection record reports the pointing's limiting magnitude
as its observed value, never the raw noisy sample, and the limiting magnitude
is retained as a separate field of the record. -/
theorem nondetection_reports_limiting_magnitude (deriveUnc : ℚ → ℚ → ℚ)
    (snrThreshold : ℚ) (p : Pointing) (modelValue z : ℚ)
    (h : (processPointing deriveUnc snrThreshold p modelValue z).detected = false) :
    (processPointing deriveUnc snrThreshold p modelValue z).observed_value =
        p.limiting_magnitude ∧
      (processPointing deriveUnc snrThreshold p modelValue z).limiting_magnitude =
        p.limiting_magnitude := by
  refine ⟨?_, rfl⟩
  simp only [processPointing] at h ⊢
  simp [h]

/-- Witness for C2 at a concrete non-detection: unit uncertainty, model value
1, threshold 5, so the signal-to-noise ratio is 1 < 5. -/
theorem nondetection_reports_limiting_magnitude_witness :
    (processPointing (fun _ _ => 1) 5 ⟨0, "g", 24⟩ 1 0).detected = false ∧
      (processPointing (fun _ _ => 1) 5 ⟨0, "g", 24⟩ 1 0).observed_value = 24 ∧
      (processPointing (fun _ _ => 1) 5 ⟨0, "g", 24⟩ 1 0).limiting_magnitude = 24 :=
  ⟨by norm_num [processPointing, detectedFlag, snrOf],
    nondetection_reports_limiting_magnitude (fun _ _ => 1) 5 ⟨0, "g", 24⟩ 1 0
      (by norm_num [processPointing, detectedFlag, snrOf])⟩

/-- C3: with a band's cadence scatter equal to 0, the first pointing is at the
survey start time and consecutive pointing times differ by exactly the band's
average cadence; in the scenario num_obs g=5, average_cadence g=2,
cadence_scatter g=0, start time 0, the pointing table builder produces the
band-g times [0, 2, 4, 6, 8] whatever the draw stream. -/
theorem zero_scatter_cadence_periodic (t0 c : ℚ) (zs : ℕ → ℚ) (n : ℕ)
    (zs2 : String → ℕ → ℚ) :
    bandTime t0 c 0 zs 0 = t0 ∧
      bandTime t0 c 0 zs (n + 1) - bandTime t0 c 0 zs n = c ∧
      make_pointing_table_from_average_cadence
          { ra := 0, dec := 0, num_obs := [("g", 5)], average_cadence := [("g", 2)],
            cadence_scatter := [("g", 0)], limiting_magnitudes := [("g", 24)],
            initMJD := 0 } zs2 =
        .ok [⟨0, "g", 24⟩, ⟨2, "g", 24⟩, ⟨4, "g", 24⟩, ⟨6, "g", 24⟩, ⟨8, "g", 24⟩] := by
  refine ⟨rfl, ?_, ?_⟩
  · simp [bandTime_zero_scatter]
    ring
  · simp [make_pointing_table_from_average_cadence, makeBandPointings, bandTimes,
      bandTime_zero_scatter, List.range_succ, List.lookup]
    norm_num [Bind.bind, Except.bind]

theorem runSim_length (deriveUnc : ℚ → ℚ → ℚ) (m : Model)
    (params : List (String × ℚ)) (snrThreshold : ℚ) (ps : List Pointing)
    (zs : ℕ → ℚ) :
    (runSim deriveUnc m params snrThreshold ps zs).length = ps.length := by
  induction ps generalizing zs with
  | nil => rfl
  | cons p rest ih => simp [runSim, ih]

theorem runSim_time_mem (deriveUnc : ℚ → ℚ → ℚ) (m : Model)
    (params : List (String × ℚ)) (snrThreshold : ℚ) (ps : List Pointing)
    (zs : ℕ → ℚ) (r : ObservationRecord)
    (hr : r ∈ runSim deriveUnc m params snrThreshold ps zs) :
    ∃ p ∈ ps, r.time = p.time := by
  induction ps generalizing zs with
  | nil => simp [runSim] at hr
  | cons p rest ih =>
      simp only [runSim, List.mem_cons] at hr
      rcases hr with h | h
      · exact ⟨p, List.mem_cons_self p rest, by simp [h, processPointing]⟩
      · obtain ⟨q, hq, hqt⟩ := ih (fun n => zs (n + 1)) h
        exact ⟨q, List.mem_cons_of_mem p hq, hqt⟩

/-- C5: with an end-time cutoff configured, every record of the pointing loop
has time at most the cutoff and exactly the pointings at or before the cutoff
are processed (the rest are dropped entirely); with no cutoff configured,
every pointing yields exactly one record. -/
theorem end_time_cutoff_drops_late_pointings (deriveUnc : ℚ → ℚ → ℚ) (m : Model)
    (params : List (String × ℚ)) (snrThreshold c : ℚ) (ps : List Pointing)
    (zs : ℕ → ℚ) :
    ((runSim deriveUnc m params snrThreshold (keptPointings (some c) ps) zs).all
          fun r => decide (r.time ≤ c)) = true ∧
      (runSim deriveUnc m params snrThreshold (keptPointings (some c) ps) zs).length =
        (ps.filter fun p => decide (p.time ≤ c)).length ∧
      (runSim deriveUnc m params snrThreshold (keptPointings none ps) zs).length =
        ps.length := by
  refine ⟨?_, runSim_length .., runSim_length ..⟩
  simp only [List.all_eq_true, decide_eq_true_eq]
  intro r hr
  obtain ⟨p, hp, ht⟩ := runSim_time_mem _ _ _ _ _ _ _ hr
  rw [ht]
  simpa using (List.mem_filter.mp hp).2

theorem rowToRecord_recordToRow (r : ObservationRecord) :
    rowToRecord (recordToRow r) = some r := by
  cases r with
  | mk t b ov unc lm det =>
      cases det <;> norm_num [recordToRow, rowToRecord, detectedCellValue]

theorem parseRows_map_recordToRow (l : List ObservationRecord) :
    parseRows (l.map recordToRow) = some l := by
  induction l with
  | nil => rfl
  | cons r t ih =>
      simp [parseRows, rowToRecord_recordToRow, ih, Bind.bind, Option.bind]

/-- C4: saving a simulation result under a name and loading it back with the
matching data mode reproduces the observation records' values exactly (the
embedding is over exact rationals, subsuming the floating-point tolerance) and
the parameter set exactly. -/
theorem save_load_roundtrip (store : List (String × SavedTransient))
    (name : String) (sim : SimResult) (dm : String)
    (hvalid : validDataModes.contains dm = true) (hmode : sim.data_mode = dm) :
    from_simulated_optical_data (save_transient store name sim) name dm =
      .ok (sim.observations, sim.parameters) := by
  have hv : dm ∈ validDataModes := by simpa using hvalid
  simp [from_simulated_optical_data, save_transient, hv, List.lookup, hmode,
    parseRows_map_recordToRow]

/-- Witness for C4: one record and one parameter, saved and reloaded in
magnitude mode. -/
theorem save_load_roundtrip_witness :
    validDataModes.contains "magnitude" = true ∧
      from_simulated_optical_data
          (save_transient [] "my_kilonova"
            ⟨"magnitude", [⟨1, "g", 20, 1/2, 24, true⟩], [("mej", 1/20)]⟩)
          "my_kilonova" "magnitude" =
        .ok ([⟨1, "g", 20, 1/2, 24, true⟩], [("mej", 1/20)]) :=
  ⟨rfl,
    save_load_roundtrip [] "my_kilonova"
      ⟨"magnitude", [⟨1, "g", 20, 1/2, 24, true⟩], [("mej", 1/20)]⟩ "magnitude"
      rfl rfl⟩

/-- C6: an unresolvable model identifier, a parameter set missing a required
model argument, a per-band cadence mapping missing a band, and an invalid
data-mode string are each a configuration error; the result is the error alone
(no partial output) and, as the draw streams are universally quantified and
absent from the conclusions, the error is raised before any stochastic work
and is never retried. -/
theorem config_errors_fail_fast (registry : List (String × Model))
    (modelId : String) (params : List (String × ℚ)) (th : ℚ) (cutoff : Option ℚ)
    (d : ℚ → ℚ → ℚ) (ps : List Pointing) (zs zsB : ℕ → ℚ) (cfg : CadenceConfig)
    (band : String) (n : ℕ) (store : List (String × SavedTransient))
    (name dm : String) :
    (registry.lookup modelId = none →
        simulate_transient registry modelId params th cutoff d ps zs =
          .error .unresolvableModel) ∧
      (∀ m, registry.lookup modelId = some m →
        requiredArgsPresent m params = false →
          simulate_transient registry modelId params th cutoff d ps zs =
            .error .missingParameter) ∧
      (cfg.average_cadence.lookup band = none →
        makeBandPointings cfg band n zsB = .error .missingBand) ∧
      (validDataModes.contains dm = false →
        from_simulated_optical_data store name dm = .error .invalidDataMode) := by
  refine ⟨fun h => ?_, fun m hm hr => ?_, fun h => ?_, fun h => ?_⟩
  · simp [simulate_transient, h]
  · simp [simulate_transient, hm, hr]
  · simp [makeBandPointings, h]
  · have hv : dm ∉ validDataModes := by simpa using h
    simp [from_simulated_optical_data, hv]

/-- Witness for C6: each of the four configuration errors at a concrete bad
configuration. -/
theorem config_errors_fail_fast_witness :
    simulate_transient [] "one_component_kilonova_model" [] 5 none
        (fun _ _ => 1) [] (fun _ => 0) = .error .unresolvableModel ∧
      simulate_transient [("m", ⟨["mej"], fun _ _ _ => 0⟩)] "m" [] 5 none
          (fun _ _ => 1) [] (fun _ => 0) = .error .missingParameter ∧
      makeBandPointings ⟨0, 0, [("g", 5)], [], [], [], 0⟩ "g" 5 (fun _ => 0) =
        .error .missingBand ∧
      from_simulated_optical_data [] "my_kilonova" "bogus" =
        .error .invalidDataMode :=
  ⟨(config_errors_fail_fast [] "one_component_kilonova_model" [] 5 none
      (fun _ _ => 1) [] (fun _ => 0) (fun _ => 0) ⟨0, 0, [], [], [], [], 0⟩ "g" 0
      [] "a" "b").1 rfl,
    (config_errors_fail_fast [("m", ⟨["mej"], fun _ _ _ => 0⟩)] "m" [] 5 none
      (fun _ _ => 1) [] (fun _ => 0) (fun _ => 0) ⟨0, 0, [], [], [], [], 0⟩ "g" 0
      [] "a" "b").2.1 _ rfl rfl,
    (config_errors_fail_fast [] "m" [] 5 none (fun _ _ => 1) [] (fun _ => 0)
      (fun _ => 0) ⟨0, 0, [("g", 5)], [], [], [], 0⟩ "g" 5 [] "a" "b").2.2.1 rfl,
    (config_errors_fail_fast [] "m" [] 5 none (fun _ _ => 1) [] (fun _ => 0)
      (fun _ => 0) ⟨0, 0, [], [], [], [], 0⟩ "g" 0 [] "my_kilonova"
      "bogus").2.2.2 rfl⟩

/-- C7 counterexample: at threshold 0, a pointing whose noisy observed value
is negative (model value -2, unit uncertainty, zero draw) has signal-to-noise
ratio -2 < 0 and is classified as a non-detection, so a threshold of zero does
not classify every pointing as detected. -/
theorem threshold_zero_not_always_detected :
    (processPointing (fun _ _ => 1) 0 ⟨0, "g", 24⟩ (-2) 0).detected = false := by
  norm_num [processPointing, detectedFlag, snrOf]

/-- C7 (amended): the engine is total on the numerical edge cases — with
threshold 0 a pointing is detected iff its signal-to-noise ratio is
nonnegative (in particular whenever the noisy observed value and the derived
uncertainty are both nonnegative), and a zero derived uncertainty yields a
signal-to-noise ratio of 0 (division by zero is total on ℚ), classifying the
pointing deterministically by whether the threshold is at most 0. -/
theorem detection_edge_cases_total (d : ℚ → ℚ → ℚ) (p : Pointing)
    (mv z th : ℚ) :
    ((processPointing d 0 p mv z).detected = true ↔
        0 ≤ snrOf (mv + d mv p.limiting_magnitude * z) (d mv p.limiting_magnitude)) ∧
      (0 ≤ mv + d mv p.limiting_magnitude * z → 0 ≤ d mv p.limiting_magnitude →
        (processPointing d 0 p mv z).detected = true) ∧
      (d mv p.limiting_magnitude = 0 →
        (processPointing d th p mv z).detected = decide (th ≤ 0)) := by
  refine ⟨by simp [processPointing, detectedFlag], fun h1 h2 => ?_, fun h => ?_⟩
  · simp [processPointing, detectedFlag, snrOf]
    exact div_nonneg h1 h2
  · simp [processPointing, detectedFlag, snrOf, h]

/-- Witness for C7 (amended): a nonnegative noisy value with unit uncertainty
is detected at threshold 0, and a zero uncertainty at threshold 7 resolves to
the non-detection branch deterministically. -/
theorem detection_edge_cases_total_witness :
    (processPointing (fun _ _ => 1) 0 ⟨0, "g", 24⟩ 3 0).detected = true ∧
      (processPointing (fun _ _ => 0) 7 ⟨0, "g", 24⟩ 3 0).detected =
        decide ((7 : ℚ) ≤ 0) :=
  ⟨(detection_edge_cases_total (fun _ _ => 1) ⟨0, "g", 24⟩ 3 0 7).2.1
      (by norm_num) (by norm_num),
    (detection_edge_cases_total (fun _ _ => 0) ⟨0, "g", 24⟩ 3 0 7).2.2 rfl⟩

/-- C8: the Model Evaluator is deterministic (identical inputs give identical
values, and with a zero noise draw a detected record's observed value is
exactly the model evaluation: no noise enters at the evaluation stage), and
the full pipeline is a pure function of configuration and draw stream, so two
runs whose caller-fixed streams agree at every index produce exactly the same
output. -/
theorem pipeline_deterministic_given_seed (m : Model) (t : ℚ) (band : String)
    (params : List (String × ℚ)) (registry : List (String × Model))
    (modelId : String) (th : ℚ) (cutoff : Option ℚ) (d : ℚ → ℚ → ℚ)
    (ps : List Pointing) (zs zs' : ℕ → ℚ) (hseed : ∀ i, zs i = zs' i)
    (p : Pointing) :
    evalModel m t band params = evalModel m t band params ∧
      simulate_transient registry modelId params th cutoff d ps zs =
        simulate_transient registry modelId params th cutoff d ps zs' ∧
      ((processPointing d th p (evalModel m p.time p.band params) 0).detected = true →
        (processPointing d th p (evalModel m p.time p.band params) 0).observed_value =
          evalModel m p.time p.band params) := by
  have hz : zs = zs' := funext hseed
  refine ⟨rfl, by rw [hz], fun h => ?_⟩
  simp only [processPointing, mul_zero, add_zero] at h ⊢
  simp [h]

/-- Witness for C8: equal streams of zeros give equal runs, and a model value
of 10 with unit uncertainty at threshold 5 is detected with observed value
exactly the model evaluation. -/
theorem pipeline_deterministic_given_seed_witness :
    simulate_transient [] "m" [] 5 none (fun _ _ => 1) [] (fun _ => 0) =
        simulate_transient [] "m" [] 5 none (fun _ _ => 1) [] (fun _ => 0) ∧
      (processPointing (fun _ _ => 1) 5 ⟨0, "g", 24⟩
          (evalModel ⟨[], fun _ _ _ => 10⟩ 0 "g" []) 0).observed_value =
        evalModel ⟨[], fun _ _ _ => 10⟩ 0 "g" [] :=
  ⟨(pipeline_deterministic_given_seed ⟨[], fun _ _ _ => 10⟩ 0 "g" [] [] "m" 5
      none (fun _ _ => 1) [] (fun _ => 0) (fun _ => 0) (fun _ => rfl)
      ⟨0, "g", 24⟩).2.1,
    (pipeline_deterministic_given_seed ⟨[], fun _ _ _ => 10⟩ 0 "g" [] [] "m" 5
      none (fun _ _ => 1) [] (fun _ => 0) (fun _ => 0) (fun _ => rfl)
      ⟨0, "g", 24⟩).2.2
      (by norm_num [processPointing, detectedFlag, snrOf, evalModel])⟩

theorem filter_partition_length {α : Type} (l : List α) (f : α → Bool) :
    (l.filter f).length + (l.filter fun a => !f a).length = l.length := by
  induction l with
  | nil => rfl
  | cons a t ih => cases h : f a <;> simp [List.filter_cons, h] <;> omega

/-- C9: the persisted `detected` column is a numeric flag whose value is 1 for
a detection and 0 (a value different from 1) for a non-detection, stored as a
numeric cell of the serialized row, and the two filters detected = 1 and
detected ≠ 1 select every record of a table exactly once. -/
theorem detected_column_numeric_flag (r : ObservationRecord)
    (table : List ObservationRecord) :
    (detectedCellValue r.detected = 1 ∨ detectedCellValue r.detected = 0) ∧
      (r.detected = true ↔ detectedCellValue r.detected = 1) ∧
      (recordToRow r).getLast? = some (.num (detectedCellValue r.detected)) ∧
      (table.filter fun q => decide (detectedCellValue q.detected = 1)).length +
          (table.filter fun q => !decide (detectedCellValue q.detected = 1)).length =
        table.length := by
  obtain ⟨t, b, ov, unc, lm, det⟩ := r
  refine ⟨?_, ?_, ?_, filter_partition_length ..⟩ <;>
    cases det <;> norm_num [detectedCellValue, recordToRow]

/-- C10: the user-defined Gaussian likelihood of `docs/likelihood.txt` infers
its sampled parameter names as the wrapped function's positional argument
names with the first (dependent-variable) argument removed, and its log
likelihood equals
-0.5 * (sum(((y - function(x, parameters)) / sigma)^2) + N * log(2 pi sigma^2))
with N = len(x). -/
theorem gaussian_likelihood_parameters_and_formula
    (L : GaussianLikelihoodKnownNoise) (log : ℚ → ℚ) (pi : ℚ)
    (h : L.functionArgNames ≠ []) :
    L.sampledParameterNames = some (L.functionArgNames.drop 1) ∧
      L.log_likelihood log pi =
        -0.5 * (((L.y.zipWith (· - ·) (L.function L.x L.parameters)).map fun r =>
              (r / L.sigma) ^ 2).sum +
            (L.x.length : ℚ) * log (2 * pi * L.sigma ^ 2)) := by
  refine ⟨?_, rfl⟩
  cases hl : L.functionArgNames with
  | nil => exact absurd hl h
  | cons a rest =>
      simp [GaussianLikelihoodKnownNoise.sampledParameterNames, popFirstArg, hl]

/-- Witness for C10: a function of arguments ["x", "a"] yields the sampled
parameter list ["a"], and the log likelihood evaluates per the formula on a
two-point data set with the identity in place of np.log and 3 in place of
np.pi. -/
theorem gaussian_likelihood_parameters_and_formula_witness :
    (⟨[1, 2], [3, 4], 1, ["x", "a"], fun xs _ => xs, [("a", 2)]⟩ :
        GaussianLikelihoodKnownNoise).sampledParameterNames = some ["a"] ∧
      (⟨[1, 2], [3, 4], 1, ["x", "a"], fun xs _ => xs, [("a", 2)]⟩ :
          GaussianLikelihoodKnownNoise).log_likelihood id 3 = -10 := by
  have h := gaussian_likelihood_parameters_and_formula
    ⟨[1, 2], [3, 4], 1, ["x", "a"], fun xs _ => xs, [("a", 2)]⟩ id 3 (by simp)
  refine ⟨by simpa using h.1, ?_⟩
  rw [h.2]
  norm_num

end Redback
